import Mathlib

/-!
Verification of the Tiered Conversation Memory & Orchestration Engine of the
oto-Linux repository, embedded from src-tauri/src/main.rs (functions
send_chat_message and trigger_deep_research) and src-tauri/src/prompts.rs.

The Message Store (db.rs), disk-backed prompt/key storage, and the HTTPS
completion service are external collaborators of the core under review; they
appear here as explicit inputs (fetched history, prompt texts, stored API
key, call outcomes, write outcomes), while every branch of the two core
functions is translated directly from the source.

Role vocabulary: the spec name "persona" is the code role string "miku", and
the spec name "analyst" is the code role string "deep-thought".
-/

namespace Oto

/-- A stored chat turn, with the fields passed to
store_chat_message(timestamp, role, content, level) in main.rs. Roles are
the raw strings the code uses: "user", "assistant", "miku", "deep-thought".
The level field is the u8 context level the turn was stored under. -/
structure ChatMessage where
  timestamp : String
  role : String
  content : String
  level : Nat
deriving DecidableEq

/-- Content of one protocol message sent to the completion API: plain text,
or the multi-part text plus image_url block built when a screenshot is
attached (main.rs lines 517-538). -/
inductive ApiContent where
  | text (s : String) : ApiContent
  | multipart (t : String) (imageUrl : String) : ApiContent
deriving DecidableEq

/-- One protocol message of the request body: a role string plus content. -/
structure ApiMsg where
  role : String
  content : ApiContent
deriving DecidableEq

/-- History filter of send_chat_message (main.rs lines 467-481): whether a
stored turn enters the context at the given level. Level 1 keeps user, miku
and assistant turns; level 2 keeps user and deep-thought turns; every other
level keeps everything except deep-thought turns. -/
def includeMsg (contextLevel : Nat) (msg : ChatMessage) : Bool :=
  if contextLevel == 1 then
    msg.role == "user" || msg.role == "miku" || msg.role == "assistant"
  else if contextLevel == 2 then
    msg.role == "user" || msg.role == "deep-thought"
  else
    msg.role != "deep-thought"

/-- Role conversion and content tagging of send_chat_message (main.rs lines
487-514): miku turns become assistant turns tagged with the Miku inner
thoughts tag at level 1 and the plain Miku tag otherwise; assistant turns at
level 1 are tagged as AI assistant responses; deep-thought turns become
assistant turns tagged as analysis; everything else passes through. -/
def relabelMsg (contextLevel : Nat) (msg : ChatMessage) : ApiMsg :=
  if msg.role == "miku" then
    if contextLevel == 1 then
      ⟨"assistant", .text ("[Miku\x27s Inner Thoughts]: " ++ msg.content)⟩
    else
      ⟨"assistant", .text ("[Miku]: " ++ msg.content)⟩
  else if msg.role == "assistant" && contextLevel == 1 then
    ⟨"assistant", .text ("[AI Assistant Response]: " ++ msg.content)⟩
  else if msg.role == "deep-thought" then
    ⟨"assistant", .text ("[Analysis]: " ++ msg.content)⟩
  else
    ⟨msg.role, .text msg.content⟩

/-- The filtered and relabeled history portion of the assembled context
(the for loop of main.rs lines 467-514). -/
def historyContext (contextLevel : Nat) (history : List ChatMessage) : List ApiMsg :=
  (history.filter (includeMsg contextLevel)).map (relabelMsg contextLevel)

/-- The configured prompt texts returned by the prompt accessors of main.rs
(get_system_prompt, get_dialogue_prompt, get_deep_research_prompt,
get_character_prompt), each already resolved against its built-in default. -/
structure Prompts where
  system : String
  dialogue : String
  deepResearch : String
  character : String
deriving DecidableEq

/-- System prompt selection of send_chat_message (main.rs lines 432-445):
level 1 uses the dialogue prompt, level 2 the deep research prompt, and any
other level the default system prompt. -/
def selectSystemPrompt (p : Prompts) (contextLevel : Nat) : String :=
  if contextLevel == 1 then p.dialogue
  else if contextLevel == 2 then p.deepResearch
  else p.system

/-- The full message list sent to the primary completion call (main.rs lines
461-538): the system entry, the filtered and relabeled history, then the
current user entry, which is multi-part exactly when a screenshot was
captured. -/
def assembleMessages (systemPrompt : String) (contextLevel : Nat)
    (history : List ChatMessage) (message : String)
    (screenshotBase64 : Option String) : List ApiMsg :=
  ⟨"system", .text systemPrompt⟩ ::
    (historyContext contextLevel history ++
      [match screenshotBase64 with
       | some b64 => ⟨"user", .multipart message ("data:image/png;base64," ++ b64)⟩
       | none => ⟨"user", .text message⟩])

/-- Rust str trim: the string without its leading and trailing whitespace
characters, computed on the character list. -/
def strTrim (s : String) : String :=
  ⟨((s.data.dropWhile Char.isWhitespace).reverse.dropWhile Char.isWhitespace).reverse⟩

/-- Outcome of one HTTPS completion call, as the callers in main.rs observe
it: a transport error, a non-2xx status carrying the response body, a 2xx
body that fails JSON parsing, or a 2xx JSON body from which the
choices[0].message.content string was extracted (none when that field is
missing or not a string). -/
inductive ApiOutcome where
  | netFail (e : String) : ApiOutcome
  | httpErr (body : String) : ApiOutcome
  | badJson (e : String) : ApiOutcome
  | ok (content : Option String) : ApiOutcome
deriving DecidableEq

instance {ε α : Type} [DecidableEq ε] [DecidableEq α] : DecidableEq (Except ε α) := fun x y =>
  match x, y with
  | .error a, .error b =>
    if h : a = b then .isTrue (by rw [h]) else .isFalse (by intro hc; cases hc; exact h rfl)
  | .error _, .ok _ => .isFalse (by intro hc; cases hc)
  | .ok _, .error _ => .isFalse (by intro hc; cases hc)
  | .ok a, .ok b =>
    if h : a = b then .isTrue (by rw [h]) else .isFalse (by intro hc; cases hc; exact h rfl)

/-- The ChatResponse struct returned by send_chat_message. -/
structure ChatResponse where
  mainResponse : String
  characterComments : Option (List String)
deriving DecidableEq

/-- Environment of one send_chat_message run: the stored API key (none when
no key file exists), the resolved prompt texts, the base64 screenshot the
capture step would produce, the timestamp string the clock produces, the
outcomes of the primary and secondary completion calls, and the outcome of
each store_chat_message write in call order (user turn, main response,
commentary). The store writes are modelled from the spec: db.rs is not part
of the source under review; an Except.error value is a StorageError
surfaced by the store. -/
structure SendEnv where
  apiKey : Option String
  prompts : Prompts
  screenshotBase64 : String
  timestamp : String
  primary : ApiOutcome
  secondary : ApiOutcome
  userStore : Except String Unit
  mainStore : Except String Unit
  commentStore : Except String Unit
deriving DecidableEq

/-- Observable trace of one send_chat_message run: the returned value, the
messages appended to the Message Store in order, the number of completion
calls issued on the primary and on the secondary endpoint use, and the
message list assembled for the primary call. -/
structure SendTrace where
  result : Except String ChatResponse
  persisted : List ChatMessage
  primaryCalls : Nat
  secondaryCalls : Nat
  sent : List ApiMsg
deriving DecidableEq

/-- send_chat_message (main.rs lines 417-642) as a function of its inputs,
the fetched ten-turn history, and the collaborating services in env.
Control flow follows the source: missing API key fails first; the system
prompt is chosen by level; a screenshot is captured only when requested at
level 0; the context is assembled from the filtered, relabeled history; the
primary call failure modes return before anything is persisted; then the
user turn is stored with the raw level, the main response is stored as
"miku" at level 1, "deep-thought" at level 2, or "assistant" at level 0
otherwise; and only the default branch issues the secondary commentary
call, whose call failures are swallowed (a storage failure of the
commentary write still propagates through the question-mark operator). -/
def send_chat_message (env : SendEnv) (message : String)
    (includeScreenshot : Bool) (contextLevel : Nat)
    (history : List ChatMessage) : SendTrace :=
  match env.apiKey with
  | none => ⟨.error "API key not configured", [], 0, 0, []⟩
  | some _ =>
    let systemPrompt := selectSystemPrompt env.prompts contextLevel
    let screenshotBase64 : Option String :=
      if includeScreenshot && contextLevel == 0 then some env.screenshotBase64 else none
    let messages := assembleMessages systemPrompt contextLevel history message screenshotBase64
    match env.primary with
    | .netFail e => ⟨.error ("API request failed: " ++ e), [], 1, 0, messages⟩
    | .httpErr body => ⟨.error ("API error: " ++ body), [], 1, 0, messages⟩
    | .badJson e => ⟨.error ("Failed to parse response: " ++ e), [], 1, 0, messages⟩
    | .ok content =>
      let mainResponse := content.getD "No response"
      match env.userStore with
      | .error e => ⟨.error e, [], 1, 0, messages⟩
      | .ok _ =>
        let userMsg : ChatMessage := ⟨env.timestamp, "user", message, contextLevel⟩
        if contextLevel == 1 then
          match env.mainStore with
          | .error e => ⟨.error e, [userMsg], 1, 0, messages⟩
          | .ok _ =>
            ⟨.ok ⟨mainResponse, none⟩,
              [userMsg, ⟨env.timestamp, "miku", mainResponse, 1⟩], 1, 0, messages⟩
        else if contextLevel == 2 then
          match env.mainStore with
          | .error e => ⟨.error e, [userMsg], 1, 0, messages⟩
          | .ok _ =>
            ⟨.ok ⟨mainResponse, none⟩,
              [userMsg, ⟨env.timestamp, "deep-thought", mainResponse, 2⟩], 1, 0, messages⟩
        else
          match env.mainStore with
          | .error e => ⟨.error e, [userMsg], 1, 0, messages⟩
          | .ok _ =>
            let asstMsg : ChatMessage := ⟨env.timestamp, "assistant", mainResponse, 0⟩
            match env.secondary with
            | .ok (some c) =>
              if c.data.isEmpty then
                ⟨.ok ⟨mainResponse, none⟩, [userMsg, asstMsg], 1, 1, messages⟩
              else
                match env.commentStore with
                | .error e => ⟨.error e, [userMsg, asstMsg], 1, 1, messages⟩
                | .ok _ =>
                  ⟨.ok ⟨mainResponse, some [strTrim c]⟩,
                    [userMsg, asstMsg, ⟨env.timestamp, "miku", c, 0⟩], 1, 1, messages⟩
            | .ok none =>
              ⟨.ok ⟨mainResponse, none⟩, [userMsg, asstMsg], 1, 1, messages⟩
            | _ => ⟨.ok ⟨mainResponse, none⟩, [userMsg, asstMsg], 1, 1, messages⟩

/-- The six-hour cooldown interval in seconds (six_hours in
trigger_deep_research). -/
def sixHours : Nat := 6 * 60 * 60

/-- Wrapping u64 subtraction a - b (release-mode Rust semantics), defined
for a and b below 2 ^ 64. -/
def u64sub (a b : Nat) : Nat := (a + 2 ^ 64 - b) % 2 ^ 64

/-- Rust str parsing to u64: an optional leading plus sign, then one or
more ASCII digits, value at most 2 ^ 64 - 1; anything else fails. Works on
the character list of the string. -/
def parseU64 (s : String) : Option Nat :=
  let t : List Char :=
    match s.data with
    | '+' :: rest => rest
    | cs => cs
  if t.isEmpty then none
  else if t.all Char.isDigit then
    let n := t.foldl (fun acc c => acc * 10 + (c.toNat - 48)) 0
    if n < 2 ^ 64 then some n else none
  else none

/-- State of the Cooldown Gate as seen by one check. -/
inductive GateStatus where
  | Open : GateStatus
  | Blocked (remaining : Nat) : GateStatus
deriving DecidableEq

/-- The cooldown check at the top of trigger_deep_research (main.rs lines
660-681): stored is the cooldown file content when the file exists. The
gate is Blocked with the remaining seconds only when the content parses as
a u64 timestamp t with now - t below six hours in u64 arithmetic; a missing
file and unparseable content both fall through to Open. -/
def checkCooldown (now : Nat) (stored : Option String) : GateStatus :=
  match stored with
  | none => .Open
  | some s =>
    match parseU64 s with
    | none => .Open
    | some t =>
      if u64sub now t < sixHours then .Blocked (sixHours - u64sub now t) else .Open

/-- The DeepResearchResponse struct returned by trigger_deep_research. -/
structure DeepResearchResponse where
  onCooldown : Bool
  remainingSeconds : Nat
  mainResponse : String
deriving DecidableEq

/-- Environment of one trigger_deep_research run: the stored API key, the
deep research prompt text, the timestamp string, the outcome of the single
completion call, and the outcomes of the analyst store write and of the
cooldown file write (both modelled from the spec as Message Store and file
system collaborators). -/
structure DeepEnv where
  apiKey : Option String
  deepPrompt : String
  timestamp : String
  api : ApiOutcome
  analystStore : Except String Unit
  cooldownWrite : Except String Unit
deriving DecidableEq

/-- The shared persistent state trigger_deep_research touches: the Message
Store log and the cooldown file content (none when the file is absent). -/
structure StoreState where
  history : List ChatMessage
  cooldownFile : Option String
deriving DecidableEq

/-- Observable trace of one trigger_deep_research run. -/
structure DeepTrace where
  result : Except String DeepResearchResponse
  state : StoreState
  apiCalls : Nat
  sent : List ApiMsg
deriving DecidableEq

/-- The role-tagged, newline-joined transcript built from the fifty-turn
history slice (main.rs lines 688-692). -/
def deepContext (history : List ChatMessage) : String :=
  String.intercalate "\n\n" (history.map (fun m => "[" ++ m.role ++ "]: " ++ m.content))

/-- trigger_deep_research (main.rs lines 656-737): checks the cooldown
first and, when blocked, returns the blocked response with the remaining
seconds and touches nothing; when open it requires the API key, issues one
completion call over the transcript, persists the result as a deep-thought
turn at level 2, and only then stamps the cooldown file with now. Every
failure path leaves the state it has not yet written untouched. -/
def trigger_deep_research (env : DeepEnv) (now : Nat) (s : StoreState) : DeepTrace :=
  match checkCooldown now s.cooldownFile with
  | .Blocked remaining => ⟨.ok ⟨true, remaining, ""⟩, s, 0, []⟩
  | .Open =>
    match env.apiKey with
    | none => ⟨.error "API key not configured", s, 0, []⟩
    | some _ =>
      let sent : List ApiMsg :=
        [⟨"system", .text env.deepPrompt⟩,
         ⟨"user", .text ("Analyze this conversation history:\n\n" ++ deepContext s.history)⟩]
      match env.api with
      | .netFail e => ⟨.error e, s, 1, sent⟩
      | .httpErr body => ⟨.error ("API request failed: " ++ body), s, 1, sent⟩
      | .badJson e => ⟨.error e, s, 1, sent⟩
      | .ok content =>
        let insights := content.getD "No insights generated"
        match env.analystStore with
        | .error e => ⟨.error e, s, 1, sent⟩
        | .ok _ =>
          let s1 : StoreState :=
            { s with history := s.history ++ [⟨env.timestamp, "deep-thought", insights, 2⟩] }
          match env.cooldownWrite with
          | .error e => ⟨.error e, s1, 1, sent⟩
          | .ok _ =>
            ⟨.ok ⟨false, 0, insights⟩, { s1 with cooldownFile := some (toString now) }, 1, sent⟩

/-! Helper lemmas shared by several results. -/

theorem includeMsg_of_ne (contextLevel : Nat) (msg : ChatMessage)
    (h1 : contextLevel ≠ 1) (h2 : contextLevel ≠ 2) :
    includeMsg contextLevel msg = includeMsg 0 msg := by
  simp [includeMsg, h1, h2]

theorem relabelMsg_of_ne (contextLevel : Nat) (msg : ChatMessage)
    (h1 : contextLevel ≠ 1) : relabelMsg contextLevel msg = relabelMsg 0 msg := by
  simp [relabelMsg, h1]

theorem sent_assembled (env : SendEnv) (message : String) (includeScreenshot : Bool)
    (contextLevel : Nat) (history : List ChatMessage) (k : String)
    (hk : env.apiKey = some k) :
    (send_chat_message env message includeScreenshot contextLevel history).sent =
      assembleMessages (selectSystemPrompt env.prompts contextLevel) contextLevel history
        message
        (if includeScreenshot && contextLevel == 0 then some env.screenshotBase64
         else none) := by
  obtain ⟨key, ps, shot, ts, primary, secondary, us, ms, cs⟩ := env
  simp only at hk
  subst hk
  simp only [send_chat_message]
  repeat' split <;> try rfl

/-! Claim theorems. -/

/-- C1: for every level in 0, 1, 2 and every turn of the fetched history,
the Context Assembler includes the turn (the turn passes the includeMsg
filter feeding historyContext) exactly when the filter rule of the level
admits its role: level 0 admits every role except the analyst role
"deep-thought", level 1 admits only "user", "miku" and "assistant", and
level 2 admits only "user" and "deep-thought". -/
theorem context_filter_matches_level_rules
    (history : List ChatMessage) (msg : ChatMessage) :
    (msg ∈ history.filter (includeMsg 0) ↔
      msg ∈ history ∧ msg.role ≠ "deep-thought") ∧
    (msg ∈ history.filter (includeMsg 1) ↔
      msg ∈ history ∧ (msg.role = "user" ∨ msg.role = "miku" ∨ msg.role = "assistant")) ∧
    (msg ∈ history.filter (includeMsg 2) ↔
      msg ∈ history ∧ (msg.role = "user" ∨ msg.role = "deep-thought")) := by
  simp [List.mem_filter, includeMsg]
  tauto

/-- C2 counterexample: the levels do share turns. A user turn that was
recorded at Analysis level 2 passes the Dialogue level 1 filter (and the
Default level 0 filter), so the assembled level 1 context contains a turn
produced at level 2, contradicting the claim. -/
theorem level_separation_counterexample :
    (⟨"t1", "user", "hello", 2⟩ : ChatMessage) ∈
      ([⟨"t1", "user", "hello", 2⟩] : List ChatMessage).filter (includeMsg 1) ∧
    (⟨"t1", "user", "hello", 2⟩ : ChatMessage) ∈
      ([⟨"t1", "user", "hello", 2⟩] : List ChatMessage).filter (includeMsg 0) ∧
    (⟨"t1", "user", "hello", 2⟩ : ChatMessage).level = 2 := by
  decide

/-- C2 amended: separation between levels holds at role granularity, not at
stored-level granularity. The level 1 context contains no analyst-role
("deep-thought") turn, the level 2 context contains no persona-role
("miku") and no assistant-role turn, and the level 0 context contains no
analyst-role turn; user-role turns, however, are folded into every level
regardless of the level at which they were recorded. -/
theorem level_separation_by_role (history : List ChatMessage) (msg : ChatMessage) :
    (msg ∈ history.filter (includeMsg 1) → msg.role ≠ "deep-thought") ∧
    (msg ∈ history.filter (includeMsg 2) → msg.role ≠ "miku" ∧ msg.role ≠ "assistant") ∧
    (msg ∈ history.filter (includeMsg 0) → msg.role ≠ "deep-thought") := by
  refine ⟨fun h => ?_, fun h => ?_, fun h => ?_⟩ <;>
    simp [List.mem_filter, includeMsg] at h
  · rcases h with ⟨-, (h | h) | h⟩ <;> simp [h]
  · rcases h with ⟨-, h | h⟩ <;> simp [h]
  · exact h.2

theorem level_separation_by_role_witness :
    (⟨"t1", "user", "hello", 2⟩ : ChatMessage) ∈
      ([⟨"t1", "user", "hello", 2⟩] : List ChatMessage).filter (includeMsg 1) ∧
    (⟨"t1", "user", "hello", 2⟩ : ChatMessage).role ≠ "deep-thought" :=
  ⟨by decide,
    (level_separation_by_role [⟨"t1", "user", "hello", 2⟩] ⟨"t1", "user", "hello", 2⟩).1
      (by decide)⟩

/-- C3: every included history turn is relabeled onto the two protocol
roles with its origin tagged in the content: a "miku" (persona) turn
becomes an assistant turn carrying the Miku inner-thoughts tag at level 1
and the plain Miku tag at every other level; an "assistant" turn at level 1
keeps role assistant and carries the AI-assistant-response tag; a
"deep-thought" (analyst) turn becomes an assistant turn carrying the
analysis tag; a "user" turn passes through with role and content unchanged;
and on all four stored roles the relabeled role is user or assistant. -/
theorem relabel_rules (contextLevel : Nat) (msg : ChatMessage) :
    (msg.role = "miku" →
      relabelMsg contextLevel msg =
        if contextLevel = 1 then
          ⟨"assistant", .text ("[Miku\x27s Inner Thoughts]: " ++ msg.content)⟩
        else ⟨"assistant", .text ("[Miku]: " ++ msg.content)⟩) ∧
    (msg.role = "assistant" → contextLevel = 1 →
      relabelMsg contextLevel msg =
        ⟨"assistant", .text ("[AI Assistant Response]: " ++ msg.content)⟩) ∧
    (msg.role = "assistant" → contextLevel ≠ 1 →
      relabelMsg contextLevel msg = ⟨msg.role, .text msg.content⟩) ∧
    (msg.role = "deep-thought" →
      relabelMsg contextLevel msg = ⟨"assistant", .text ("[Analysis]: " ++ msg.content)⟩) ∧
    (msg.role = "user" →
      relabelMsg contextLevel msg = ⟨msg.role, .text msg.content⟩) ∧
    ((msg.role = "user" ∨ msg.role = "assistant" ∨ msg.role = "miku" ∨
        msg.role = "deep-thought") →
      (relabelMsg contextLevel msg).role = "user" ∨
        (relabelMsg contextLevel msg).role = "assistant") := by
  by_cases hl : contextLevel = 1
  · subst hl
    refine ⟨fun h => ?_, fun h _ => ?_, fun h h1 => absurd rfl h1, fun h => ?_,
      fun h => ?_, fun h => ?_⟩
    · simp [relabelMsg, h]
    · simp [relabelMsg, h]
    · simp [relabelMsg, h]
    · simp [relabelMsg, h]
    · rcases h with h | h | h | h <;> simp [relabelMsg, h]
  · refine ⟨fun h => ?_, fun h h1 => absurd h1 hl, fun h _ => ?_, fun h => ?_,
      fun h => ?_, fun h => ?_⟩
    · simp [relabelMsg, h, hl]
    · simp [relabelMsg, h, hl]
    · simp [relabelMsg, h, hl]
    · simp [relabelMsg, h, hl]
    · rcases h with h | h | h | h <;> simp [relabelMsg, h, hl]

theorem relabel_rules_witness :
    relabelMsg 1 ⟨"t", "miku", "x", 1⟩ =
      ⟨"assistant", ApiContent.text ("[Miku\x27s Inner Thoughts]: " ++ "x")⟩ := by
  have h := (relabel_rules 1 ⟨"t", "miku", "x", 1⟩).1 rfl
  simpa using h

/-- C4: the deep-analysis gate is Blocked exactly when a stored timestamp
exists, parses as a u64 value t, and now - t (u64 arithmetic) is below
21600 seconds, and then the reported remaining seconds equal
21600 - (now - t); a missing cooldown file and an unparseable stored
timestamp both yield Open. -/
theorem cooldown_gate_spec (now : Nat) (stored : Option String) :
    (∀ r, checkCooldown now stored = GateStatus.Blocked r ↔
      ∃ s t, stored = some s ∧ parseU64 s = some t ∧ u64sub now t < sixHours ∧
        r = sixHours - u64sub now t) ∧
    checkCooldown now none = GateStatus.Open ∧
    (∀ s, stored = some s → parseU64 s = none →
      checkCooldown now stored = GateStatus.Open) := by
  refine ⟨?_, rfl, ?_⟩
  · intro r
    cases stored with
    | none => simp [checkCooldown]
    | some s =>
      cases hp : parseU64 s with
      | none => simp [checkCooldown, hp]
      | some t =>
        by_cases hlt : u64sub now t < sixHours
        · simp only [checkCooldown, hp, hlt, if_pos]
          constructor
          · intro h
            cases h
            exact ⟨s, t, rfl, hp, hlt, rfl⟩
          · rintro ⟨s', t', hs, hp', hlt', hr⟩
            cases hs
            rw [hp] at hp'
            cases hp'
            rw [hr]
        · simp only [checkCooldown, hp, hlt, if_neg, not_false_iff]
          constructor
          · intro h
            cases h
          · rintro ⟨s', t', hs, hp', hlt', hr⟩
            cases hs
            rw [hp] at hp'
            cases hp'
            exact absurd hlt' hlt
  · intro s hs hp
    subst hs
    simp [checkCooldown, hp]

theorem cooldown_gate_spec_witness :
    checkCooldown 30000 (some "10000") = GateStatus.Blocked 1600 :=
  ((cooldown_gate_spec 30000 (some "10000")).1 1600).mpr
    ⟨"10000", 10000, rfl, by decide, by decide, by decide⟩

/-- C5: when the cooldown gate is blocked, trigger_deep_research returns
the blocked state with the remaining time and has no other effect: no
completion call is issued, nothing is assembled or sent, no message is
persisted, and the cooldown file is untouched. -/
theorem blocked_gate_no_effects (env : DeepEnv) (now : Nat) (s : StoreState) (r : Nat)
    (h : checkCooldown now s.cooldownFile = GateStatus.Blocked r) :
    trigger_deep_research env now s = ⟨Except.ok ⟨true, r, ""⟩, s, 0, []⟩ := by
  simp [trigger_deep_research, h]

theorem blocked_gate_no_effects_witness :
    trigger_deep_research
        ⟨some "k", "dp", "t0", ApiOutcome.ok (some "ins"), Except.ok (), Except.ok ()⟩
        100 ⟨[], some "90"⟩ =
      ⟨Except.ok ⟨true, 21590, ""⟩, ⟨[], some "90"⟩, 0, []⟩ :=
  blocked_gate_no_effects _ 100 _ 21590 (by decide)

/-- C6: the cooldown timestamp is stamped exactly on a successful
deep-analysis run: a run that returns success off cooldown leaves the
cooldown file stamped with now and the analyst-role result persisted at
level 2, any failing run (missing key, transport failure, non-2xx status,
malformed body, storage failure, cooldown write failure) leaves the
cooldown file unchanged, and a blocked run leaves the whole state
unchanged. -/
theorem cooldown_stamp_discipline (env : DeepEnv) (now : Nat) (s : StoreState) :
    (∀ resp, (trigger_deep_research env now s).result = Except.ok resp →
      resp.onCooldown = false →
        (trigger_deep_research env now s).state.cooldownFile = some (toString now) ∧
        (⟨env.timestamp, "deep-thought", resp.mainResponse, 2⟩ : ChatMessage) ∈
          (trigger_deep_research env now s).state.history) ∧
    (∀ e, (trigger_deep_research env now s).result = Except.error e →
      (trigger_deep_research env now s).state.cooldownFile = s.cooldownFile) ∧
    (∀ resp, (trigger_deep_research env now s).result = Except.ok resp →
      resp.onCooldown = true → (trigger_deep_research env now s).state = s) := by
  obtain ⟨key, dp, ts, api, ast, cw⟩ := env
  cases hC : checkCooldown now s.cooldownFile <;>
    cases key <;> cases api <;> cases ast <;> cases cw <;>
      simp_all [trigger_deep_research]

theorem cooldown_stamp_discipline_witness :
    (trigger_deep_research
        ⟨some "k", "dp", "t0", ApiOutcome.ok (some "ins"), Except.ok (), Except.ok ()⟩
        1000 ⟨[], none⟩).state.cooldownFile = some "1000" ∧
    (⟨"t0", "deep-thought", "ins", 2⟩ : ChatMessage) ∈
      (trigger_deep_research
        ⟨some "k", "dp", "t0", ApiOutcome.ok (some "ins"), Except.ok (), Except.ok ()⟩
        1000 ⟨[], none⟩).state.history := by
  have h := (cooldown_stamp_discipline
      ⟨some "k", "dp", "t0", ApiOutcome.ok (some "ins"), Except.ok (), Except.ok ()⟩
      1000 ⟨[], none⟩).1 ⟨false, 0, "ins"⟩ (by decide) rfl
  exact ⟨h.1.trans (by decide), h.2⟩

/-- C7: when the primary completion call returns a non-success status,
send_chat_message fails with an error carrying the response body, persists
nothing to the Message Store (neither the user turn nor any response), and
never attempts the secondary commentary call. -/
theorem primary_failure_persists_nothing (env : SendEnv) (message : String)
    (includeScreenshot : Bool) (contextLevel : Nat) (history : List ChatMessage)
    (body : String) (hk : env.apiKey.isSome)
    (hp : env.primary = ApiOutcome.httpErr body) :
    (send_chat_message env message includeScreenshot contextLevel history).result
        = Except.error ("API error: " ++ body) ∧
    (send_chat_message env message includeScreenshot contextLevel history).persisted = [] ∧
    (send_chat_message env message includeScreenshot contextLevel history).secondaryCalls
        = 0 := by
  obtain ⟨key, ps, shot, ts, primary, secondary, us, ms, cs⟩ := env
  cases key with
  | none => simp at hk
  | some k => simp_all [send_chat_message]

theorem primary_failure_persists_nothing_witness :
    (send_chat_message
        ⟨some "k", ⟨"sys", "dlg", "dr", "chr"⟩, "shot", "t0",
          ApiOutcome.httpErr "boom", ApiOutcome.ok (some "c"),
          Except.ok (), Except.ok (), Except.ok ()⟩ "q" false 0 []).result
        = Except.error ("API error: " ++ "boom") ∧
    (send_chat_message
        ⟨some "k", ⟨"sys", "dlg", "dr", "chr"⟩, "shot", "t0",
          ApiOutcome.httpErr "boom", ApiOutcome.ok (some "c"),
          Except.ok (), Except.ok (), Except.ok ()⟩ "q" false 0 []).persisted = [] ∧
    (send_chat_message
        ⟨some "k", ⟨"sys", "dlg", "dr", "chr"⟩, "shot", "t0",
          ApiOutcome.httpErr "boom", ApiOutcome.ok (some "c"),
          Except.ok (), Except.ok (), Except.ok ()⟩ "q" false 0 []).secondaryCalls = 0 :=
  primary_failure_persists_nothing _ "q" false 0 [] "boom" (by decide) rfl

/-- C8 counterexample: a 2xx primary response whose JSON merely lacks the
choices text field is not a hard failure. With the primary outcome ok but
no content string extracted, send_chat_message succeeds with the substitute
answer "No response", and both the user turn and the substitute answer are
persisted. -/
theorem missing_field_placeholder_counterexample :
    (send_chat_message
        ⟨some "k", ⟨"sys", "dlg", "dr", "chr"⟩, "shot", "t0",
          ApiOutcome.ok none, ApiOutcome.netFail "x",
          Except.ok (), Except.ok (), Except.ok ()⟩ "q" false 0 []).result
      = Except.ok ⟨"No response", none⟩ ∧
    (send_chat_message
        ⟨some "k", ⟨"sys", "dlg", "dr", "chr"⟩, "shot", "t0",
          ApiOutcome.ok none, ApiOutcome.netFail "x",
          Except.ok (), Except.ok (), Except.ok ()⟩ "q" false 0 []).persisted
      = [⟨"t0", "user", "q", 0⟩, ⟨"t0", "assistant", "No response", 0⟩] := by
  decide

/-- C8 amended: a 2xx primary response whose body fails JSON parsing is a
hard failure, with nothing persisted; but a 2xx valid-JSON response that
merely lacks the choices text field is not a failure: the placeholder
text "No response" is used as the primary answer, persisted, and returned. -/
theorem primary_parse_behavior (env : SendEnv) (message : String)
    (includeScreenshot : Bool) (contextLevel : Nat) (history : List ChatMessage) :
    (∀ e, env.apiKey.isSome → env.primary = ApiOutcome.badJson e →
      (send_chat_message env message includeScreenshot contextLevel history).result
          = Except.error ("Failed to parse response: " ++ e) ∧
      (send_chat_message env message includeScreenshot contextLevel history).persisted
          = []) ∧
    (env.apiKey.isSome → env.primary = ApiOutcome.ok none →
      env.userStore = Except.ok () → env.mainStore = Except.ok () →
      env.commentStore = Except.ok () → contextLevel = 0 →
      (∃ comments,
        (send_chat_message env message includeScreenshot contextLevel history).result
          = Except.ok ⟨"No response", comments⟩) ∧
      (⟨env.timestamp, "assistant", "No response", 0⟩ : ChatMessage) ∈
        (send_chat_message env message includeScreenshot contextLevel history).persisted) := by
  obtain ⟨key, ps, shot, ts, primary, secondary, us, ms, cs⟩ := env
  constructor
  · intro e hk hp
    cases key with
    | none => simp at hk
    | some k => simp_all [send_chat_message]
  · intro hk hp hus hms hcs hlevel
    cases key with
    | none => simp at hk
    | some k =>
      subst hlevel
      simp only at hp hus hms hcs
      subst hp hus hms hcs
      cases secondary with
      | ok oc =>
        cases oc with
        | none => exact ⟨⟨none, by simp [send_chat_message]⟩, by simp [send_chat_message]⟩
        | some c =>
          by_cases hc : c.data.isEmpty
          · exact ⟨⟨none, by simp [send_chat_message, hc]⟩, by simp [send_chat_message, hc]⟩
          · exact ⟨⟨some [strTrim c], by simp [send_chat_message, hc]⟩,
              by simp [send_chat_message, hc]⟩
      | netFail e => exact ⟨⟨none, by simp [send_chat_message]⟩, by simp [send_chat_message]⟩
      | httpErr b => exact ⟨⟨none, by simp [send_chat_message]⟩, by simp [send_chat_message]⟩
      | badJson e => exact ⟨⟨none, by simp [send_chat_message]⟩, by simp [send_chat_message]⟩

theorem primary_parse_behavior_witness :
    (send_chat_message
        ⟨some "k", ⟨"sys", "dlg", "dr", "chr"⟩, "shot", "t0",
          ApiOutcome.badJson "bad", ApiOutcome.ok (some "c"),
          Except.ok (), Except.ok (), Except.ok ()⟩ "q" false 0 []).result
        = Except.error ("Failed to parse response: " ++ "bad") ∧
    (send_chat_message
        ⟨some "k", ⟨"sys", "dlg", "dr", "chr"⟩, "shot", "t0",
          ApiOutcome.badJson "bad", ApiOutcome.ok (some "c"),
          Except.ok (), Except.ok (), Except.ok ()⟩ "q" false 0 []).persisted = [] :=
  (primary_parse_behavior
      ⟨some "k", ⟨"sys", "dlg", "dr", "chr"⟩, "shot", "t0",
        ApiOutcome.badJson "bad", ApiOutcome.ok (some "c"),
        Except.ok (), Except.ok (), Except.ok ()⟩ "q" false 0 []).1
    "bad" (by decide) rfl

/-- C9: at level 0, once the primary answer succeeded and both the user
turn and the answer were stored, exactly one secondary commentary call is
issued and the answer is persisted under role assistant; when that call
succeeds with a nonempty commentary and the commentary write succeeds, the
commentary is persisted under the persona role "miku" and returned as a
single item; when the secondary call fails in any way (transport, non-2xx
status, malformed body) the function returns no commentary and the turn
still reports success. -/
theorem secondary_commentary_behavior (env : SendEnv) (message : String)
    (includeScreenshot : Bool) (history : List ChatMessage) (pc : Option String)
    (hk : env.apiKey.isSome) (hp : env.primary = ApiOutcome.ok pc)
    (hus : env.userStore = Except.ok ()) (hms : env.mainStore = Except.ok ()) :
    (send_chat_message env message includeScreenshot 0 history).secondaryCalls = 1 ∧
    (⟨env.timestamp, "assistant", pc.getD "No response", 0⟩ : ChatMessage) ∈
      (send_chat_message env message includeScreenshot 0 history).persisted ∧
    (∀ c, env.secondary = ApiOutcome.ok (some c) → c.data.isEmpty = false →
      env.commentStore = Except.ok () →
      (send_chat_message env message includeScreenshot 0 history).result
          = Except.ok ⟨pc.getD "No response", some [strTrim c]⟩ ∧
      (⟨env.timestamp, "miku", c, 0⟩ : ChatMessage) ∈
        (send_chat_message env message includeScreenshot 0 history).persisted) ∧
    (∀ e, (env.secondary = ApiOutcome.netFail e ∨ env.secondary = ApiOutcome.httpErr e ∨
        env.secondary = ApiOutcome.badJson e) →
      (send_chat_message env message includeScreenshot 0 history).result
          = Except.ok ⟨pc.getD "No response", none⟩) := by
  obtain ⟨key, ps, shot, ts, primary, secondary, us, ms, cs⟩ := env
  cases key with
  | none => simp at hk
  | some k =>
    simp only at hp hus hms
    subst hp hus hms
    refine ⟨?_, ?_, ?_, ?_⟩
    · cases secondary with
      | ok oc =>
        cases oc with
        | none => simp [send_chat_message]
        | some c =>
          by_cases hc : c.data.isEmpty
          · simp [send_chat_message, hc]
          · cases cs <;> simp [send_chat_message, hc]
      | netFail e => simp [send_chat_message]
      | httpErr b => simp [send_chat_message]
      | badJson e => simp [send_chat_message]
    · cases secondary with
      | ok oc =>
        cases oc with
        | none => simp [send_chat_message]
        | some c =>
          by_cases hc : c.data.isEmpty
          · simp [send_chat_message, hc]
          · cases cs <;> simp [send_chat_message, hc]
      | netFail e => simp [send_chat_message]
      | httpErr b => simp [send_chat_message]
      | badJson e => simp [send_chat_message]
    · intro c hsec hc hcs
      simp only at hsec hcs
      subst hsec hcs
      constructor <;> simp [send_chat_message, hc]
    · intro e he
      rcases he with he | he | he <;> (simp only at he; subst he; simp [send_chat_message])

theorem secondary_commentary_behavior_witness :
    (send_chat_message
        ⟨some "k", ⟨"sys", "dlg", "dr", "chr"⟩, "shot", "t0",
          ApiOutcome.ok (some "ans"), ApiOutcome.netFail "x",
          Except.ok (), Except.ok (), Except.ok ()⟩ "q" false 0 []).secondaryCalls = 1 ∧
    (⟨"t0", "assistant", (some "ans").getD "No response", 0⟩ : ChatMessage) ∈
      (send_chat_message
        ⟨some "k", ⟨"sys", "dlg", "dr", "chr"⟩, "shot", "t0",
          ApiOutcome.ok (some "ans"), ApiOutcome.netFail "x",
          Except.ok (), Except.ok (), Except.ok ()⟩ "q" false 0 []).persisted :=
  ⟨(secondary_commentary_behavior
      ⟨some "k", ⟨"sys", "dlg", "dr", "chr"⟩, "shot", "t0",
        ApiOutcome.ok (some "ans"), ApiOutcome.netFail "x",
        Except.ok (), Except.ok (), Except.ok ()⟩ "q" false [] (some "ans")
      (by decide) rfl rfl rfl).1,
    (secondary_commentary_behavior
      ⟨some "k", ⟨"sys", "dlg", "dr", "chr"⟩, "shot", "t0",
        ApiOutcome.ok (some "ans"), ApiOutcome.netFail "x",
        Except.ok (), Except.ok (), Except.ok ()⟩ "q" false [] (some "ans")
      (by decide) rfl rfl rfl).2.1⟩

/-- C10 counterexample: at the out-of-range level 7, send_chat_message does
run the default branch, but the persisted main answer is stored at the
hardcoded level 0, not at the raw level value 7 that the user turn carries,
contradicting the claim that both persisted turns are tagged with the raw
level. -/
theorem raw_level_tagging_counterexample :
    (send_chat_message
        ⟨some "k", ⟨"sys", "dlg", "dr", "chr"⟩, "shot", "t0",
          ApiOutcome.ok (some "ans"), ApiOutcome.netFail "x",
          Except.ok (), Except.ok (), Except.ok ()⟩ "q" true 7 []).result
      = Except.ok ⟨"ans", none⟩ ∧
    (send_chat_message
        ⟨some "k", ⟨"sys", "dlg", "dr", "chr"⟩, "shot", "t0",
          ApiOutcome.ok (some "ans"), ApiOutcome.netFail "x",
          Except.ok (), Except.ok (), Except.ok ()⟩ "q" true 7 []).persisted
      = [⟨"t0", "user", "q", 7⟩, ⟨"t0", "assistant", "ans", 0⟩] := by
  decide

/-- C10 amended: every context_level other than 1 and 2 behaves as the
Default level: the default system prompt is selected, the assembled history
context is exactly the level 0 context, the primary answer is persisted
under role assistant and the commentary call is attempted, and a screenshot
is attached only when the level is exactly 0 — but while the persisted user
turn carries the raw level value, the persisted assistant answer is stored
at level 0. -/
theorem nondialogue_level_default_behavior (env : SendEnv) (message : String)
    (includeScreenshot : Bool) (contextLevel : Nat) (history : List ChatMessage)
    (pc : Option String) (h1 : contextLevel ≠ 1) (h2 : contextLevel ≠ 2) :
    selectSystemPrompt env.prompts contextLevel = env.prompts.system ∧
    historyContext contextLevel history = historyContext 0 history ∧
    (env.apiKey.isSome → env.primary = ApiOutcome.ok pc →
      env.userStore = Except.ok () → env.mainStore = Except.ok () →
      (⟨env.timestamp, "user", message, contextLevel⟩ : ChatMessage) ∈
        (send_chat_message env message includeScreenshot contextLevel history).persisted ∧
      (⟨env.timestamp, "assistant", pc.getD "No response", 0⟩ : ChatMessage) ∈
        (send_chat_message env message includeScreenshot contextLevel history).persisted ∧
      (send_chat_message env message includeScreenshot contextLevel history).secondaryCalls
          = 1) ∧
    (contextLevel ≠ 0 → env.apiKey.isSome →
      (send_chat_message env message includeScreenshot contextLevel history).sent =
        ⟨"system", ApiContent.text env.prompts.system⟩ ::
          (historyContext 0 history ++ [⟨"user", ApiContent.text message⟩])) ∧
    (contextLevel = 0 → includeScreenshot = true → env.apiKey.isSome →
      (send_chat_message env message includeScreenshot contextLevel history).sent =
        ⟨"system", ApiContent.text env.prompts.system⟩ ::
          (historyContext 0 history ++
            [⟨"user", ApiContent.multipart message
                ("data:image/png;base64," ++ env.screenshotBase64)⟩])) := by
  have hctx : historyContext contextLevel history = historyContext 0 history := by
    unfold historyContext
    rw [List.filter_congr (fun m _ => includeMsg_of_ne contextLevel m h1 h2)]
    exact List.map_congr_left (fun m _ => relabelMsg_of_ne contextLevel m h1)
  obtain ⟨key, ps, shot, ts, primary, secondary, us, ms, cs⟩ := env
  refine ⟨by simp [selectSystemPrompt, h1, h2], hctx, ?_, ?_, ?_⟩
  · intro hk hp hus hms
    cases key with
    | none => simp at hk
    | some k =>
      simp only at hp hus hms
      subst hp hus hms
      cases secondary with
      | ok oc =>
        cases oc with
        | none => simp [send_chat_message, h1, h2]
        | some c =>
          by_cases hc : c.data.isEmpty
          · simp [send_chat_message, h1, h2, hc]
          · cases cs <;> simp [send_chat_message, h1, h2, hc]
      | netFail e => simp [send_chat_message, h1, h2]
      | httpErr b => simp [send_chat_message, h1, h2]
      | badJson e => simp [send_chat_message, h1, h2]
  · intro h0 hk
    cases key with
    | none => simp at hk
    | some k =>
      rw [sent_assembled _ message includeScreenshot contextLevel history k rfl]
      have hss : (includeScreenshot && contextLevel == 0) = false := by simp [h0]
      rw [hss]
      simp [assembleMessages, selectSystemPrompt, h1, h2, hctx]
  · intro h0 hscr hk
    subst h0 hscr
    cases key with
    | none => simp at hk
    | some k =>
      rw [sent_assembled _ message true 0 history k rfl]
      simp [assembleMessages, selectSystemPrompt]

theorem nondialogue_level_default_behavior_witness :
    (⟨"t0", "user", "q", 5⟩ : ChatMessage) ∈
      (send_chat_message
        ⟨some "k", ⟨"sys", "dlg", "dr", "chr"⟩, "shot", "t0",
          ApiOutcome.ok (some "ans"), ApiOutcome.netFail "x",
          Except.ok (), Except.ok (), Except.ok ()⟩ "q" false 5 []).persisted ∧
    (⟨"t0", "assistant", (some "ans").getD "No response", 0⟩ : ChatMessage) ∈
      (send_chat_message
        ⟨some "k", ⟨"sys", "dlg", "dr", "chr"⟩, "shot", "t0",
          ApiOutcome.ok (some "ans"), ApiOutcome.netFail "x",
          Except.ok (), Except.ok (), Except.ok ()⟩ "q" false 5 []).persisted ∧
    (send_chat_message
        ⟨some "k", ⟨"sys", "dlg", "dr", "chr"⟩, "shot", "t0",
          ApiOutcome.ok (some "ans"), ApiOutcome.netFail "x",
          Except.ok (), Except.ok (), Except.ok ()⟩ "q" false 5 []).secondaryCalls = 1 :=
  (nondialogue_level_default_behavior
      ⟨some "k", ⟨"sys", "dlg", "dr", "chr"⟩, "shot", "t0",
        ApiOutcome.ok (some "ans"), ApiOutcome.netFail "x",
        Except.ok (), Except.ok (), Except.ok ()⟩ "q" false 5 [] (some "ans")
      (by decide) (by decide)).2.2.1 (by decide) rfl rfl rfl

end Oto
